import Mathlib

/-!
Verification of the CTAP2 data-binding layer (src/ctap/data_formats.rs).

The CBOR tree type, the primitive accessors, and every entity codec are
embedded as executable Lean definitions, translated from the source.
The external crypto collaborators (ecdsa::SecKey, ecdh::PubKey) are not
part of the source tree; they are modelled from the specification, as
marked in their doc comments.
-/

/-- CBOR key types, from the cbor crate (cbor::KeyType): unsigned and
negative integers, byte strings, text strings. The unsigned payload is a
u64, the negative payload an i64. -/
inductive KeyType where
  | Unsigned (n : Nat)
  | Negative (n : Int)
  | ByteString (bytes : List Nat)
  | TextString (s : String)
deriving DecidableEq

/-- CBOR simple values (cbor::SimpleValue). -/
inductive SimpleValue where
  | FalseValue
  | TrueValue
  | NullValue
  | Undefined
deriving DecidableEq

/-- CBOR values (cbor::Value). A BTreeMap is modelled as an association
list; the code only uses exact-key lookup and removal, which are
order-insensitive for the duplicate-free maps the BTreeMap guarantees. -/
inductive Value where
  | KeyValue (k : KeyType)
  | Array (xs : List Value)
  | Map (m : List (KeyType × Value))
  | Simple (s : SimpleValue)

/-- The CTAP status codes returned by this layer (status_code.rs subset). -/
inductive Ctap2StatusCode where
  | CTAP2_ERR_CBOR_UNEXPECTED_TYPE
  | CTAP2_ERR_MISSING_PARAMETER
  | CTAP2_ERR_INVALID_CBOR
  | CTAP2_ERR_INVALID_OPTION
  | CTAP2_ERR_UNSUPPORTED_ALGORITHM
  | CTAP1_ERR_INVALID_PARAMETER
deriving DecidableEq

/-- Result type of every fallible operation in this layer. -/
abbrev Res (α : Type) := Except Ctap2StatusCode α

/-- Sequencing of fallible steps, mirroring the `?` operator. -/
def rbind {α β : Type} (x : Res α) (f : α → Res β) : Res β :=
  match x with
  | .ok a => f a
  | .error e => .error e

/-- Mirrors `option.map(f).transpose()?` used for optional fields. -/
def readOpt {α : Type} (f : Value → Res α) : Option Value → Res (Option α)
  | none => .ok none
  | some v =>
    match f v with
    | .ok a => .ok (some a)
    | .error e => .error e

/-- Mirrors `iter().map(f).collect::<Result<Vec<_>, _>>()`. -/
def mapMRes {α β : Type} (f : α → Res β) : List α → Res (List β)
  | [] => .ok []
  | a :: rest =>
    rbind (f a) fun b =>
    rbind (mapMRes f rest) fun bs =>
    .ok (b :: bs)

/-- Exact-key lookup in a CBOR map (BTreeMap::get). -/
def mapGet (m : List (KeyType × Value)) (k : KeyType) : Option Value :=
  match m with
  | [] => none
  | (kk, v) :: rest => if kk = k then some v else mapGet rest k

/-- Exact-key removal in a CBOR map (BTreeMap::remove), returning the
removed value and the remaining map. -/
def mapRemove (m : List (KeyType × Value)) (k : KeyType) :
    Option Value × List (KeyType × Value) :=
  match m with
  | [] => (none, [])
  | (kk, v) :: rest =>
    if kk = k then (some v, rest)
    else
      let r := mapRemove rest k
      (r.1, (kk, v) :: r.2)

def cborText (s : String) : Value := Value.KeyValue (KeyType.TextString s)

def cborBytes (b : List Nat) : Value := Value.KeyValue (KeyType.ByteString b)

def cborUnsigned (n : Nat) : Value := Value.KeyValue (KeyType.Unsigned n)

/-- The cbor_int macro: negative integers use the Negative major type,
non-negative ones the Unsigned major type. -/
def cborInt (i : Int) : Value :=
  if i < 0 then Value.KeyValue (KeyType.Negative i)
  else Value.KeyValue (KeyType.Unsigned i.toNat)

def cborBool (b : Bool) : Value :=
  Value.Simple (if b then SimpleValue.TrueValue else SimpleValue.FalseValue)

/-- i64::MAX. -/
def I64_MAX : Int := 2 ^ 63 - 1

/-- read_unsigned: accepts only the unsigned major type, full u64 width. -/
def read_unsigned (cbor_value : Value) : Res Nat :=
  match cbor_value with
  | .KeyValue (.Unsigned u) => .ok u
  | _ => .error .CTAP2_ERR_CBOR_UNEXPECTED_TYPE

/-- read_integer: an unsigned value converts only if it fits in i64;
a negative value converts directly; anything else is a type error. -/
def read_integer (cbor_value : Value) : Res Int :=
  match cbor_value with
  | .KeyValue (.Unsigned u) =>
    if (u : Int) ≤ I64_MAX then .ok (u : Int)
    else .error .CTAP2_ERR_CBOR_UNEXPECTED_TYPE
  | .KeyValue (.Negative s) => .ok s
  | _ => .error .CTAP2_ERR_CBOR_UNEXPECTED_TYPE

def read_byte_string (cbor_value : Value) : Res (List Nat) :=
  match cbor_value with
  | .KeyValue (.ByteString b) => .ok b
  | _ => .error .CTAP2_ERR_CBOR_UNEXPECTED_TYPE

def extract_byte_string (cbor_value : Value) : Res (List Nat) :=
  match cbor_value with
  | .KeyValue (.ByteString b) => .ok b
  | _ => .error .CTAP2_ERR_CBOR_UNEXPECTED_TYPE

def read_text_string (cbor_value : Value) : Res String :=
  match cbor_value with
  | .KeyValue (.TextString s) => .ok s
  | _ => .error .CTAP2_ERR_CBOR_UNEXPECTED_TYPE

def extract_text_string (cbor_value : Value) : Res String :=
  match cbor_value with
  | .KeyValue (.TextString s) => .ok s
  | _ => .error .CTAP2_ERR_CBOR_UNEXPECTED_TYPE

def read_array (cbor_value : Value) : Res (List Value) :=
  match cbor_value with
  | .Array a => .ok a
  | _ => .error .CTAP2_ERR_CBOR_UNEXPECTED_TYPE

def read_map (cbor_value : Value) : Res (List (KeyType × Value)) :=
  match cbor_value with
  | .Map m => .ok m
  | _ => .error .CTAP2_ERR_CBOR_UNEXPECTED_TYPE

def extract_map (cbor_value : Value) : Res (List (KeyType × Value)) :=
  match cbor_value with
  | .Map m => .ok m
  | _ => .error .CTAP2_ERR_CBOR_UNEXPECTED_TYPE

def read_bool (cbor_value : Value) : Res Bool :=
  match cbor_value with
  | .Simple .FalseValue => .ok false
  | .Simple .TrueValue => .ok true
  | _ => .error .CTAP2_ERR_CBOR_UNEXPECTED_TYPE

def ok_or_missing {α : Type} (value_option : Option α) : Res α :=
  match value_option with
  | some v => .ok v
  | none => .error .CTAP2_ERR_MISSING_PARAMETER

/-- https://www.w3.org/TR/webauthn/#dictdef-publickeycredentialrpentity -/
structure PublicKeyCredentialRpEntity where
  rp_id : String
  rp_name : Option String
  rp_icon : Option String
deriving DecidableEq

/-- PublicKeyCredentialRpEntity::try_from. -/
def rpEntityTryFrom (cbor_value : Value) : Res PublicKeyCredentialRpEntity :=
  rbind (read_map cbor_value) fun rp_map =>
  rbind (rbind (ok_or_missing (mapGet rp_map (KeyType.TextString "id"))) read_text_string)
    fun rp_id =>
  rbind (readOpt read_text_string (mapGet rp_map (KeyType.TextString "name"))) fun rp_name =>
  rbind (readOpt read_text_string (mapGet rp_map (KeyType.TextString "icon"))) fun rp_icon =>
  .ok { rp_id, rp_name, rp_icon }

/-- Modelled from the spec: the source has no encoder for
PublicKeyCredentialRpEntity; per the spec each encode function is the
structural inverse of decode, emitting exactly the documented key set and
omitting absent optionals. -/
def rpEntityToCbor (entity : PublicKeyCredentialRpEntity) : Value :=
  Value.Map
    ([(KeyType.TextString "id", cborText entity.rp_id)]
      ++ (match entity.rp_name with
          | some s => [(KeyType.TextString "name", cborText s)]
          | none => [])
      ++ (match entity.rp_icon with
          | some s => [(KeyType.TextString "icon", cborText s)]
          | none => []))

/-- https://www.w3.org/TR/webauthn/#dictdef-publickeycredentialuserentity -/
structure PublicKeyCredentialUserEntity where
  user_id : List Nat
  user_name : Option String
  user_display_name : Option String
  user_icon : Option String
deriving DecidableEq

/-- PublicKeyCredentialUserEntity::try_from. -/
def userEntityTryFrom (cbor_value : Value) : Res PublicKeyCredentialUserEntity :=
  rbind (read_map cbor_value) fun user_map =>
  rbind (rbind (ok_or_missing (mapGet user_map (KeyType.TextString "id"))) read_byte_string)
    fun user_id =>
  rbind (readOpt read_text_string (mapGet user_map (KeyType.TextString "name")))
    fun user_name =>
  rbind (readOpt read_text_string (mapGet user_map (KeyType.TextString "displayName")))
    fun user_display_name =>
  rbind (readOpt read_text_string (mapGet user_map (KeyType.TextString "icon")))
    fun user_icon =>
  .ok { user_id, user_name, user_display_name, user_icon }

/-- From PublicKeyCredentialUserEntity for cbor::Value (cbor_map_options). -/
def userEntityToCbor (entity : PublicKeyCredentialUserEntity) : Value :=
  Value.Map
    ([(KeyType.TextString "id", cborBytes entity.user_id)]
      ++ (match entity.user_name with
          | some s => [(KeyType.TextString "name", cborText s)]
          | none => [])
      ++ (match entity.user_display_name with
          | some s => [(KeyType.TextString "displayName", cborText s)]
          | none => [])
      ++ (match entity.user_icon with
          | some s => [(KeyType.TextString "icon", cborText s)]
          | none => []))

/-- https://www.w3.org/TR/webauthn/#enumdef-publickeycredentialtype -/
inductive PublicKeyCredentialType where
  | PublicKey
  | Unknown
deriving DecidableEq

/-- From PublicKeyCredentialType for cbor::Value. -/
def credentialTypeToCbor (cred_type : PublicKeyCredentialType) : Value :=
  match cred_type with
  | .PublicKey => cborText "public-key"
  | .Unknown => cborText "unknown"

/-- PublicKeyCredentialType::try_from: lenient, unknown strings map to the
Unknown sentinel instead of an error. -/
def credentialTypeTryFrom (cbor_value : Value) : Res PublicKeyCredentialType :=
  rbind (read_text_string cbor_value) fun cred_type_string =>
  if cred_type_string = "public-key" then .ok .PublicKey
  else .ok .Unknown

/-- Modelled from the spec: the fixed ES256 signature algorithm code of the
external ecdsa crate (ecdsa::PubKey::ES256_ALGORITHM), the COSE code -7; the
source also defines the same constant locally for the COSE key adapter. -/
def ES256_ALGORITHM : Int := -7

inductive SignatureAlgorithm where
  | ES256
  | Unknown
deriving DecidableEq

/-- The discriminant values of SignatureAlgorithm (`alg as i64`):
ES256 = ES256_ALGORITHM, Unknown = 0. -/
def signatureAlgorithmCode (alg : SignatureAlgorithm) : Int :=
  match alg with
  | .ES256 => ES256_ALGORITHM
  | .Unknown => 0

/-- SignatureAlgorithm::try_from: lenient, numbers other than the ES256 code
map to the Unknown sentinel instead of an error. -/
def signatureAlgorithmTryFrom (cbor_value : Value) : Res SignatureAlgorithm :=
  rbind (read_integer cbor_value) fun i =>
  if i = ES256_ALGORITHM then .ok .ES256
  else .ok .Unknown

/-- https://www.w3.org/TR/webauthn/#dictdef-publickeycredentialparameters -/
structure PublicKeyCredentialParameter where
  cred_type : PublicKeyCredentialType
  alg : SignatureAlgorithm
deriving DecidableEq

/-- PublicKeyCredentialParameter::try_from. -/
def credentialParameterTryFrom (cbor_value : Value) : Res PublicKeyCredentialParameter :=
  rbind (read_map cbor_value) fun cred_param_map =>
  rbind (rbind (ok_or_missing (mapGet cred_param_map (KeyType.TextString "type")))
      credentialTypeTryFrom) fun cred_type =>
  rbind (rbind (ok_or_missing (mapGet cred_param_map (KeyType.TextString "alg")))
      signatureAlgorithmTryFrom) fun alg =>
  .ok { cred_type, alg }

/-- From PublicKeyCredentialParameter for cbor::Value. -/
def credentialParameterToCbor (cred_param : PublicKeyCredentialParameter) : Value :=
  Value.Map
    [(KeyType.TextString "type", credentialTypeToCbor cred_param.cred_type),
     (KeyType.TextString "alg", cborInt (signatureAlgorithmCode cred_param.alg))]

/-- https://www.w3.org/TR/webauthn/#enumdef-authenticatortransport -/
inductive AuthenticatorTransport where
  | Usb
  | Nfc
  | Ble
  | Internal
deriving DecidableEq

/-- From AuthenticatorTransport for cbor::Value. -/
def authenticatorTransportToCbor (transport : AuthenticatorTransport) : Value :=
  match transport with
  | .Usb => cborText "usb"
  | .Nfc => cborText "nfc"
  | .Ble => cborText "ble"
  | .Internal => cborText "internal"

/-- AuthenticatorTransport::try_from: strict, unknown strings are a hard
decode error. -/
def authenticatorTransportTryFrom (cbor_value : Value) : Res AuthenticatorTransport :=
  rbind (read_text_string cbor_value) fun transport_string =>
  if transport_string = "usb" then .ok .Usb
  else if transport_string = "nfc" then .ok .Nfc
  else if transport_string = "ble" then .ok .Ble
  else if transport_string = "internal" then .ok .Internal
  else .error .CTAP2_ERR_CBOR_UNEXPECTED_TYPE

/-- https://www.w3.org/TR/webauthn/#dictdef-publickeycredentialdescriptor -/
structure PublicKeyCredentialDescriptor where
  key_type : PublicKeyCredentialType
  key_id : List Nat
  transports : Option (List AuthenticatorTransport)
deriving DecidableEq

/-- PublicKeyCredentialDescriptor::try_from. -/
def credentialDescriptorTryFrom (cbor_value : Value) : Res PublicKeyCredentialDescriptor :=
  rbind (read_map cbor_value) fun cred_desc_map =>
  rbind (rbind (ok_or_missing (mapGet cred_desc_map (KeyType.TextString "type")))
      credentialTypeTryFrom) fun key_type =>
  rbind (rbind (ok_or_missing (mapGet cred_desc_map (KeyType.TextString "id")))
      read_byte_string) fun key_id =>
  rbind (match mapGet cred_desc_map (KeyType.TextString "transports") with
    | some exclude_entry =>
      rbind (read_array exclude_entry) fun transport_vec =>
      rbind (mapMRes authenticatorTransportTryFrom transport_vec) fun transports =>
      .ok (some transports)
    | none => .ok none) fun transports =>
  .ok { key_type, key_id, transports }

/-- From PublicKeyCredentialDescriptor for cbor::Value. -/
def credentialDescriptorToCbor (desc : PublicKeyCredentialDescriptor) : Value :=
  Value.Map
    ([(KeyType.TextString "type", credentialTypeToCbor desc.key_type),
      (KeyType.TextString "id", cborBytes desc.key_id)]
      ++ (match desc.transports with
          | some vec =>
            [(KeyType.TextString "transports",
              Value.Array (vec.map authenticatorTransportToCbor))]
          | none => []))

/-- The extensions bag: a map from extension name to opaque raw node. -/
structure Extensions where
  entries : List (String × Value)

/-- The loop body of Extensions::try_from: every key must be a text
string; values are kept opaque. -/
def collectExtensions (m : List (KeyType × Value)) : Res (List (String × Value)) :=
  match m with
  | [] => .ok []
  | (KeyType.TextString s, v) :: rest =>
    rbind (collectExtensions rest) fun l => .ok ((s, v) :: l)
  | _ => .error .CTAP2_ERR_CBOR_UNEXPECTED_TYPE

/-- Extensions::try_from. -/
def extensionsTryFrom (cbor_value : Value) : Res Extensions :=
  rbind (read_map cbor_value) fun m =>
  rbind (collectExtensions m) fun l =>
  .ok ⟨l⟩

/-- From Extensions for cbor::Value. -/
def extensionsToCbor (extensions : Extensions) : Value :=
  Value.Map (extensions.entries.map fun p => (KeyType.TextString p.1, p.2))

/-- CoseKey: the opaque fixed-label map wrapping an EC public key. -/
structure CoseKey where
  entries : List (KeyType × Value)

/-- GetAssertionHmacSecretInput. -/
structure GetAssertionHmacSecretInput where
  key_agreement : CoseKey
  salt_enc : List Nat
  salt_auth : List Nat

/-- GetAssertionHmacSecretInput::try_from: labels 1 (key-agreement key,
itself a map), 2 (encrypted salt), 3 (salt auth tag), all required. -/
def hmacSecretInputTryFrom (cbor_value : Value) : Res GetAssertionHmacSecretInput :=
  rbind (read_map cbor_value) fun input_map =>
  rbind (rbind (ok_or_missing (mapGet input_map (KeyType.Unsigned 1))) read_map)
    fun cose_key =>
  rbind (rbind (ok_or_missing (mapGet input_map (KeyType.Unsigned 2))) read_byte_string)
    fun salt_enc =>
  rbind (rbind (ok_or_missing (mapGet input_map (KeyType.Unsigned 3))) read_byte_string)
    fun salt_auth =>
  .ok { key_agreement := ⟨cose_key⟩, salt_enc, salt_auth }

/-- GetAssertionHmacSecretOutput. -/
structure GetAssertionHmacSecretOutput where
  bytes : List Nat
deriving DecidableEq

def hmacSecretOutputToCbor (message : GetAssertionHmacSecretOutput) : Value :=
  cborBytes message.bytes

def hmacSecretOutputTryFrom (cbor_value : Value) : Res GetAssertionHmacSecretOutput :=
  rbind (read_byte_string cbor_value) fun b => .ok ⟨b⟩

structure MakeCredentialOptions where
  rk : Bool
  uv : Bool
deriving DecidableEq

/-- MakeCredentialOptions::try_from: rk defaults to false; an explicit
"up" entry is type-checked and, when boolean false, is an invalid option;
uv defaults to false. -/
def makeCredentialOptionsTryFrom (cbor_value : Value) : Res MakeCredentialOptions :=
  rbind (read_map cbor_value) fun options_map =>
  rbind (match mapGet options_map (KeyType.TextString "rk") with
    | some options_entry => read_bool options_entry
    | none => .ok false) fun rk =>
  rbind (match mapGet options_map (KeyType.TextString "up") with
    | some options_entry =>
      rbind (read_bool options_entry) fun b =>
      if b then .ok () else .error .CTAP2_ERR_INVALID_OPTION
    | none => .ok ()) fun _ =>
  rbind (match mapGet options_map (KeyType.TextString "uv") with
    | some options_entry => read_bool options_entry
    | none => .ok false) fun uv =>
  .ok { rk, uv }

structure GetAssertionOptions where
  up : Bool
  uv : Bool
deriving DecidableEq

/-- GetAssertionOptions::try_from: any "rk" entry is type-checked (only for
the status code) and then unconditionally rejected as an invalid option;
up defaults to true, uv to false. -/
def getAssertionOptionsTryFrom (cbor_value : Value) : Res GetAssertionOptions :=
  rbind (read_map cbor_value) fun options_map =>
  match mapGet options_map (KeyType.TextString "rk") with
  | some options_entry =>
    rbind (read_bool options_entry) fun _ =>
    .error .CTAP2_ERR_INVALID_OPTION
  | none =>
    rbind (match mapGet options_map (KeyType.TextString "up") with
      | some options_entry => read_bool options_entry
      | none => .ok true) fun up =>
    rbind (match mapGet options_map (KeyType.TextString "uv") with
      | some options_entry => read_bool options_entry
      | none => .ok false) fun uv =>
    .ok { up, uv }

/-- ClientPinSubCommand: closed set of seven fixed codes, no sentinel. -/
inductive ClientPinSubCommand where
  | GetPinRetries
  | GetKeyAgreement
  | SetPin
  | ChangePin
  | GetPinUvAuthTokenUsingPin
  | GetPinUvAuthTokenUsingUv
  | GetUvRetries
deriving DecidableEq

/-- From ClientPinSubCommand for cbor::Value: wire codes 0x01..0x07. -/
def clientPinSubCommandToCbor (subcommand : ClientPinSubCommand) : Value :=
  match subcommand with
  | .GetPinRetries => cborUnsigned 1
  | .GetKeyAgreement => cborUnsigned 2
  | .SetPin => cborUnsigned 3
  | .ChangePin => cborUnsigned 4
  | .GetPinUvAuthTokenUsingPin => cborUnsigned 5
  | .GetPinUvAuthTokenUsingUv => cborUnsigned 6
  | .GetUvRetries => cborUnsigned 7

/-- ClientPinSubCommand::try_from: strict, unknown codes are a hard decode
error. -/
def clientPinSubCommandTryFrom (cbor_value : Value) : Res ClientPinSubCommand :=
  rbind (read_unsigned cbor_value) fun subcommand_int =>
  if subcommand_int = 1 then .ok .GetPinRetries
  else if subcommand_int = 2 then .ok .GetKeyAgreement
  else if subcommand_int = 3 then .ok .SetPin
  else if subcommand_int = 4 then .ok .ChangePin
  else if subcommand_int = 5 then .ok .GetPinUvAuthTokenUsingPin
  else if subcommand_int = 6 then .ok .GetPinUvAuthTokenUsingUv
  else if subcommand_int = 7 then .ok .GetUvRetries
  else .error .CTAP1_ERR_INVALID_PARAMETER

/-- Big-endian interpretation of a byte string as a natural number. -/
def bytesToNat (bs : List Nat) : Nat :=
  bs.foldl (fun a b => 256 * a + b) 0

/-- The order of the P-256 base point group. -/
def p256Order : Nat :=
  0xffffffff00000000ffffffffffffffffbce6faada7179e84f3b9cac2fc632551

/-- Modelled from the spec: validity of a 32-byte private scalar for the
curve, as checked by the external ecdsa::SecKey::from_bytes — exactly 32
bytes, each a byte, encoding a nonzero scalar below the group order. -/
def validScalar (bs : List Nat) : Bool :=
  bs.length == 32 && bs.all (fun b => b < 256) &&
    bytesToNat bs != 0 && bytesToNat bs < p256Order

/-- Modelled from the spec: an ecdsa::SecKey is a valid private scalar. -/
def SecKey := { bs : List Nat // validScalar bs = true }

instance : DecidableEq SecKey := Subtype.instDecidableEq

/-- Modelled from the spec: ecdsa::SecKey::from_bytes, returning a key only
for a valid private scalar, never a zero-filled or truncated key. -/
def secKeyFromBytes (bs : List Nat) : Option SecKey :=
  if h : validScalar bs = true then some ⟨bs, h⟩ else none

/-- Modelled from the spec: ecdsa::SecKey::to_bytes, the 32-byte scalar. -/
def SecKey.to_bytes (k : SecKey) : List Nat := k.val

/-- https://www.w3.org/TR/webauthn/#public-key-credential-source -/
structure PublicKeyCredentialSource where
  key_type : PublicKeyCredentialType
  credential_id : List Nat
  private_key : SecKey
  rp_id : String
  user_handle : List Nat
  other_ui : Option String
  cred_random : Option (List Nat)
deriving DecidableEq

/-- From PublicKeyCredentialSource for cbor::Value, as an association list:
persistent tags 0=credential_id, 1=private_key, 2=rp_id, 3=user_handle,
4=other_ui, 5=cred_random; absent optionals are skipped. The credential
type is not serialized. -/
def credentialSourceToCborMap (credential : PublicKeyCredentialSource) :
    List (KeyType × Value) :=
  [(KeyType.Unsigned 0, cborBytes credential.credential_id),
   (KeyType.Unsigned 1, cborBytes credential.private_key.to_bytes),
   (KeyType.Unsigned 2, cborText credential.rp_id),
   (KeyType.Unsigned 3, cborBytes credential.user_handle)]
    ++ (match credential.other_ui with
        | some s => [(KeyType.Unsigned 4, cborText s)]
        | none => [])
    ++ (match credential.cred_random with
        | some b => [(KeyType.Unsigned 5, cborBytes b)]
        | none => [])

def credentialSourceToCbor (credential : PublicKeyCredentialSource) : Value :=
  Value.Map (credentialSourceToCborMap credential)

/-- PublicKeyCredentialSource::try_from: removes each recognized tag from
the map (required tags missing is a missing parameter), validates the
private-key length is exactly 32 before scalar reconstruction (either
failure is invalid stored data), silently discards unrecognized tags, and
unconditionally sets the credential type to PublicKey. -/
def credentialSourceTryFrom (cbor_value : Value) : Res PublicKeyCredentialSource :=
  rbind (extract_map cbor_value) fun map0 =>
  let r0 := mapRemove map0 (KeyType.Unsigned 0)
  rbind (rbind (ok_or_missing r0.1) extract_byte_string) fun credential_id =>
  let r1 := mapRemove r0.2 (KeyType.Unsigned 1)
  rbind (rbind (ok_or_missing r1.1) extract_byte_string) fun private_key_bytes =>
  if private_key_bytes.length ≠ 32 then .error .CTAP2_ERR_INVALID_CBOR
  else
    rbind (match secKeyFromBytes private_key_bytes with
      | some k => .ok k
      | none => .error .CTAP2_ERR_INVALID_CBOR) fun private_key =>
    let r2 := mapRemove r1.2 (KeyType.Unsigned 2)
    rbind (rbind (ok_or_missing r2.1) extract_text_string) fun rp_id =>
    let r3 := mapRemove r2.2 (KeyType.Unsigned 3)
    rbind (rbind (ok_or_missing r3.1) extract_byte_string) fun user_handle =>
    let r4 := mapRemove r3.2 (KeyType.Unsigned 4)
    rbind (readOpt extract_text_string r4.1) fun other_ui =>
    let r5 := mapRemove r4.2 (KeyType.Unsigned 5)
    rbind (readOpt extract_byte_string r5.1) fun cred_random =>
    .ok { key_type := .PublicKey, credential_id, private_key, rp_id,
          user_handle, other_ui, cred_random }

/-- The COSE algorithm specifier for ECDH-ES + HKDF-256 (compatibility with
older specification versions). -/
def ECDH_ALGORITHM : Int := -25

def EC2_KEY_TYPE : Int := 2

def P_256_CURVE : Int := 1

/-- Modelled from the spec: ecdh::NBYTES, the exact coordinate width of the
P-256 curve. -/
def NBYTES : Nat := 32

/-- The P-256 field prime. -/
def p256Prime : Nat := 2 ^ 256 - 2 ^ 224 + 2 ^ 192 + 2 ^ 96 - 1

/-- The P-256 curve coefficient b. -/
def p256B : Nat :=
  0x5ac635d8aa3a93e7b3ebbd55769886bc651d06b0cc53b0f63bce3c3e27d2604b

/-- Whether (x, y) satisfies the P-256 curve equation. -/
def onCurveP256 (x y : Nat) : Bool :=
  x < p256Prime && y < p256Prime &&
    (y * y) % p256Prime = (x * x * x + (p256Prime - 3) * x + p256B) % p256Prime

/-- Modelled from the spec: an ecdh::PubKey is a point on the P-256 curve. -/
def EcdhPubKey := { p : Nat × Nat // onCurveP256 p.1 p.2 = true }

/-- Modelled from the spec: ecdh::PubKey::from_coordinates, succeeding only
when the coordinates form a point on the curve. -/
def pubKeyFromCoordinates (x_bytes y_bytes : List Nat) : Option EcdhPubKey :=
  let x := bytesToNat x_bytes
  let y := bytesToNat y_bytes
  if h : onCurveP256 x y = true then some ⟨(x, y), h⟩ else none

/-- TryFrom CoseKey for ecdh::PubKey: requires key type 2 (EC2), algorithm
ECDH_ALGORITHM or the accepted ES256_ALGORITHM alias, curve 1 (P-256) —
any mismatch is an unsupported algorithm — and coordinate byte strings of
the exact width NBYTES — a wrong length is an invalid parameter. -/
def coseKeyToPubKey (cose_key : CoseKey) : Res EcdhPubKey :=
  rbind (rbind (ok_or_missing (mapGet cose_key.entries (KeyType.Unsigned 1)))
      read_integer) fun key_type =>
  if key_type ≠ EC2_KEY_TYPE then .error .CTAP2_ERR_UNSUPPORTED_ALGORITHM
  else
    rbind (rbind (ok_or_missing (mapGet cose_key.entries (KeyType.Unsigned 3)))
        read_integer) fun algorithm =>
    if algorithm ≠ ECDH_ALGORITHM ∧ algorithm ≠ ES256_ALGORITHM then
      .error .CTAP2_ERR_UNSUPPORTED_ALGORITHM
    else
      rbind (rbind (ok_or_missing (mapGet cose_key.entries (KeyType.Negative (-1))))
          read_integer) fun curve =>
      if curve ≠ P_256_CURVE then .error .CTAP2_ERR_UNSUPPORTED_ALGORITHM
      else
        rbind (rbind (ok_or_missing (mapGet cose_key.entries (KeyType.Negative (-2))))
            read_byte_string) fun x_bytes =>
        if x_bytes.length ≠ NBYTES then .error .CTAP1_ERR_INVALID_PARAMETER
        else
          rbind (rbind (ok_or_missing (mapGet cose_key.entries (KeyType.Negative (-3))))
              read_byte_string) fun y_bytes =>
          if y_bytes.length ≠ NBYTES then .error .CTAP1_ERR_INVALID_PARAMETER
          else
            match pubKeyFromCoordinates x_bytes y_bytes with
            | some pk => .ok pk
            | none => .error .CTAP1_ERR_INVALID_PARAMETER

/-- A concrete valid private scalar: 31 zero bytes then 1. -/
def exScalarBytes : List Nat := List.replicate 31 0 ++ [1]

/-- A concrete SecKey for witnesses. -/
def exSecKey : SecKey := ⟨exScalarBytes, by decide⟩

/-- A concrete credential source with all optionals set. -/
def exCredSource : PublicKeyCredentialSource :=
  { key_type := .PublicKey
    credential_id := [10, 11]
    private_key := exSecKey
    rp_id := "example.com"
    user_handle := [1]
    other_ui := some "other"
    cred_random := some [7, 7] }

/-- A concrete credential source whose type is the Unknown sentinel. -/
def exCredSourceUnknown : PublicKeyCredentialSource :=
  { exCredSource with key_type := .Unknown }

/-! ## Shared lemmas -/

@[simp]
theorem rbind_ok {α β : Type} (a : α) (f : α → Res β) : rbind (.ok a) f = f a := rfl

@[simp]
theorem rbind_error {α β : Type} (e : Ctap2StatusCode) (f : α → Res β) :
    rbind (.error e) f = .error e := rfl

theorem rbind_eq_ok_iff {α β : Type} (x : Res α) (f : α → Res β) (b : β) :
    rbind x f = .ok b ↔ ∃ a, x = .ok a ∧ f a = .ok b := by
  cases x <;> simp [rbind]

@[simp]
theorem mapRemove_fst (m : List (KeyType × Value)) (k : KeyType) :
    (mapRemove m k).1 = mapGet m k := by
  induction m with
  | nil => rfl
  | cons p rest ih =>
    by_cases h : p.1 = k <;> simp [mapRemove, mapGet, h, ih]

theorem mapGet_mapRemove_snd (m : List (KeyType × Value)) (k kr : KeyType)
    (h : k ≠ kr) : mapGet (mapRemove m kr).2 k = mapGet m k := by
  induction m with
  | nil => rfl
  | cons p rest ih =>
    have hkr : kr ≠ k := fun hh => h hh.symm
    by_cases hp : p.1 = kr
    · simp [mapRemove, mapGet, hp, hkr]
    · by_cases hk : p.1 = k <;> simp [mapRemove, mapGet, hp, hk, h, hkr, ih]

theorem read_integer_cborInt (i : Int) (h1 : -(2 ^ 63) ≤ i) (h2 : i < 2 ^ 63) :
    read_integer (cborInt i) = .ok i := by
  by_cases hi : i < 0
  · simp [cborInt, hi, read_integer]
  · have hnn : 0 ≤ i := le_of_not_lt hi
    have htn : ((i.toNat : Nat) : Int) = i := Int.toNat_of_nonneg hnn
    simp only [cborInt, hi, if_false, read_integer, I64_MAX, htn]
    rw [if_pos (by omega)]

@[simp]
theorem read_bool_cborBool (b : Bool) : read_bool (cborBool b) = .ok b := by
  cases b <;> rfl

theorem eq_cborBool_of_read_bool_ok {v : Value} {b : Bool}
    (h : read_bool v = .ok b) : v = cborBool b := by
  cases v with
  | Simple s =>
    cases s with
    | FalseValue => simp [read_bool] at h; subst h; rfl
    | TrueValue => simp [read_bool] at h; subst h; rfl
    | NullValue => simp [read_bool] at h
    | Undefined => simp [read_bool] at h
  | KeyValue k => simp [read_bool] at h
  | Array xs => simp [read_bool] at h
  | Map mm => simp [read_bool] at h

theorem read_bool_error (v : Value) (h : ∀ b, v ≠ cborBool b) :
    read_bool v = .error .CTAP2_ERR_CBOR_UNEXPECTED_TYPE := by
  cases v with
  | Simple s =>
    cases s with
    | FalseValue => exact absurd rfl (h false)
    | TrueValue => exact absurd rfl (h true)
    | NullValue => rfl
    | Undefined => rfl
  | KeyValue k => rfl
  | Array xs => rfl
  | Map mm => rfl

theorem read_bool_error_eq {v : Value} {e : Ctap2StatusCode}
    (h : read_bool v = .error e) : e = .CTAP2_ERR_CBOR_UNEXPECTED_TYPE := by
  cases v with
  | Simple s => cases s <;> simp [read_bool] at h <;> try exact h.symm
  | KeyValue k => simp [read_bool] at h; exact h.symm
  | Array xs => simp [read_bool] at h; exact h.symm
  | Map mm => simp [read_bool] at h; exact h.symm

/-! ## Claims -/

/-- Claim C1, counterexample: the wire unsigned integer 2^63 differs from
the ES256 code, yet decoding it as a SignatureAlgorithm does not succeed
with the Unknown sentinel: it fails with the wrong-type error, because the
integer accessor rejects unsigned values above the signed 64-bit maximum. -/
theorem claim_C1_counterexample :
    signatureAlgorithmTryFrom (cborUnsigned (2 ^ 63)) =
      .error .CTAP2_ERR_CBOR_UNEXPECTED_TYPE ∧
    signatureAlgorithmTryFrom (cborUnsigned (2 ^ 63)) ≠
      .ok SignatureAlgorithm.Unknown := by
  have he : signatureAlgorithmTryFrom (cborUnsigned (2 ^ 63)) =
      Except.error Ctap2StatusCode.CTAP2_ERR_CBOR_UNEXPECTED_TYPE := rfl
  exact ⟨he, by rw [he]; simp⟩

/-- Claim C1 (amended): decoding a PublicKeyCredentialType from any text
string other than "public-key" succeeds with Unknown; decoding a
SignatureAlgorithm from any integer in the signed 64-bit range other than
the ES256 code succeeds with Unknown, while an unsigned wire integer above
the signed 64-bit maximum fails with the wrong-type error; decoding an
AuthenticatorTransport from any text string outside the four known ones
fails with the wrong-type error; and decoding a ClientPinSubCommand from
any wire code outside 0x01..0x07 fails with the invalid-parameter error. -/
theorem claim_C1 (s t : String) (i : Int) (u n : Nat)
    (hs : s ≠ "public-key")
    (hi1 : -(2 ^ 63) ≤ i) (hi2 : i < 2 ^ 63) (hi3 : i ≠ ES256_ALGORITHM)
    (hu1 : 2 ^ 63 ≤ u) (hu2 : u < 2 ^ 64)
    (ht : t ≠ "usb" ∧ t ≠ "nfc" ∧ t ≠ "ble" ∧ t ≠ "internal")
    (hn : n = 0 ∨ 7 < n) (hn2 : n < 2 ^ 64) :
    credentialTypeTryFrom (cborText s) = .ok .Unknown ∧
    signatureAlgorithmTryFrom (cborInt i) = .ok .Unknown ∧
    signatureAlgorithmTryFrom (cborUnsigned u) =
      .error .CTAP2_ERR_CBOR_UNEXPECTED_TYPE ∧
    authenticatorTransportTryFrom (cborText t) =
      .error .CTAP2_ERR_CBOR_UNEXPECTED_TYPE ∧
    clientPinSubCommandTryFrom (cborUnsigned n) =
      .error .CTAP1_ERR_INVALID_PARAMETER := by
  refine ⟨?_, ?_, ?_, ?_, ?_⟩
  · simp [credentialTypeTryFrom, cborText, read_text_string, hs]
  · rw [signatureAlgorithmTryFrom, read_integer_cborInt i hi1 hi2, rbind_ok,
      if_neg hi3]
  · have hcond : ¬ ((u : Int) ≤ I64_MAX) := by
      rw [I64_MAX]; omega
    simp [signatureAlgorithmTryFrom, cborUnsigned, read_integer, hcond]
  · simp [authenticatorTransportTryFrom, cborText, read_text_string,
      ht.1, ht.2.1, ht.2.2.1, ht.2.2.2]
  · have h1 : n ≠ 1 := by omega
    have h2 : n ≠ 2 := by omega
    have h3 : n ≠ 3 := by omega
    have h4 : n ≠ 4 := by omega
    have h5 : n ≠ 5 := by omega
    have h6 : n ≠ 6 := by omega
    have h7 : n ≠ 7 := by omega
    simp [clientPinSubCommandTryFrom, cborUnsigned, read_unsigned,
      h1, h2, h3, h4, h5, h6, h7]

/-- Claim C1, witness at s = "unknown-type", i = -1, u = 2^63,
t = "carrier-pigeon", n = 8. -/
theorem claim_C1_witness :
    credentialTypeTryFrom (cborText "unknown-type") = .ok .Unknown ∧
    signatureAlgorithmTryFrom (cborInt (-1)) = .ok .Unknown ∧
    signatureAlgorithmTryFrom (cborUnsigned (2 ^ 63)) =
      .error .CTAP2_ERR_CBOR_UNEXPECTED_TYPE ∧
    authenticatorTransportTryFrom (cborText "carrier-pigeon") =
      .error .CTAP2_ERR_CBOR_UNEXPECTED_TYPE ∧
    clientPinSubCommandTryFrom (cborUnsigned 8) =
      .error .CTAP1_ERR_INVALID_PARAMETER :=
  claim_C1 "unknown-type" "carrier-pigeon" (-1) (2 ^ 63) 8
    (by decide) (by decide) (by decide) (by decide) (by decide) (by decide)
    ⟨by decide, by decide, by decide, by decide⟩ (by decide) (by decide)

/-- Claim C2: read_integer returns a wire non-negative integer v as a
signed value exactly when v is at most the signed 64-bit maximum and fails
with the wrong-type error otherwise; it returns every wire negative
integer directly; read_unsigned accepts the full unsigned 64-bit width
unchanged, so 2^63 fails as signed but succeeds as unsigned. -/
theorem claim_C2 (v : Nat) (s : Int) (hv : v < 2 ^ 64)
    (hs1 : -(2 ^ 63) ≤ s) (hs2 : s < 0) :
    (v ≤ 2 ^ 63 - 1 → read_integer (cborUnsigned v) = .ok (v : Int)) ∧
    (2 ^ 63 - 1 < v →
      read_integer (cborUnsigned v) = .error .CTAP2_ERR_CBOR_UNEXPECTED_TYPE) ∧
    read_integer (Value.KeyValue (KeyType.Negative s)) = .ok s ∧
    read_unsigned (cborUnsigned v) = .ok v ∧
    read_integer (cborUnsigned (2 ^ 63)) = .error .CTAP2_ERR_CBOR_UNEXPECTED_TYPE ∧
    read_unsigned (cborUnsigned (2 ^ 63)) = .ok (2 ^ 63) := by
  refine ⟨?_, ?_, rfl, rfl, ?_, rfl⟩
  · intro h
    simp only [cborUnsigned, read_integer]
    rw [if_pos (by rw [I64_MAX]; omega)]
  · intro h
    simp only [cborUnsigned, read_integer]
    rw [if_neg (by rw [I64_MAX]; omega)]
  · simp only [cborUnsigned, read_integer]
    rw [if_neg (by rw [I64_MAX]; omega)]

/-- Claim C2, witness at v = 2^63 and s = -1. -/
theorem claim_C2_witness :
    read_integer (cborUnsigned (2 ^ 63)) = .error .CTAP2_ERR_CBOR_UNEXPECTED_TYPE ∧
    read_unsigned (cborUnsigned (2 ^ 63)) = .ok (2 ^ 63) ∧
    read_integer (Value.KeyValue (KeyType.Negative (-1))) = .ok (-1) := by
  have h := claim_C2 (2 ^ 63) (-1) (by decide) (by decide) (by decide)
  exact ⟨h.2.2.2.2.1, h.2.2.2.2.2, h.2.2.1⟩

/-- Claim C3: for every input map containing the "rk" key,
GetAssertionOptions decode fails: a well-typed boolean value yields the
invalid-option error, a non-boolean value yields the wrong-type error (the
type check runs before the option rejection), and no map containing "rk"
ever decodes successfully. -/
theorem claim_C3 (m : List (KeyType × Value)) (v : Value)
    (h : mapGet m (KeyType.TextString "rk") = some v) :
    (∀ b, v = cborBool b →
      getAssertionOptionsTryFrom (Value.Map m) = .error .CTAP2_ERR_INVALID_OPTION) ∧
    ((∀ b, v ≠ cborBool b) →
      getAssertionOptionsTryFrom (Value.Map m) =
        .error .CTAP2_ERR_CBOR_UNEXPECTED_TYPE) ∧
    (∀ o, getAssertionOptionsTryFrom (Value.Map m) ≠ .ok o) := by
  refine ⟨?_, ?_, ?_⟩
  · rintro b rfl
    simp [getAssertionOptionsTryFrom, read_map, h]
  · intro hb
    simp [getAssertionOptionsTryFrom, read_map, h, read_bool_error v hb]
  · intro o
    simp only [getAssertionOptionsTryFrom, read_map, rbind_ok, h]
    rcases hre : read_bool v with e | b <;> simp [rbind]

/-- Claim C3, witness: decoding the concrete map with entry "rk" mapped to
boolean true fails with the invalid-option error. -/
theorem claim_C3_witness :
    getAssertionOptionsTryFrom
      (Value.Map [(KeyType.TextString "rk", cborBool true)]) =
      .error .CTAP2_ERR_INVALID_OPTION :=
  (claim_C3 [(KeyType.TextString "rk", cborBool true)] (cborBool true) rfl).1
    true rfl

/-- Claim C4, counterexample: the map with "rk" mapped to integer 1 and
"up" mapped to boolean false contains an "up" entry whose value is boolean
false, yet MakeCredentialOptions decode fails with the wrong-type error
from the earlier "rk" type check, not with the invalid-option error. -/
theorem claim_C4_counterexample :
    mapGet [(KeyType.TextString "rk", cborUnsigned 1),
        (KeyType.TextString "up", cborBool false)]
      (KeyType.TextString "up") = some (cborBool false) ∧
    makeCredentialOptionsTryFrom
      (Value.Map [(KeyType.TextString "rk", cborUnsigned 1),
        (KeyType.TextString "up", cborBool false)]) =
      .error .CTAP2_ERR_CBOR_UNEXPECTED_TYPE ∧
    makeCredentialOptionsTryFrom
      (Value.Map [(KeyType.TextString "rk", cborUnsigned 1),
        (KeyType.TextString "up", cborBool false)]) ≠
      .error .CTAP2_ERR_INVALID_OPTION := by
  refine ⟨rfl, rfl, ?_⟩
  intro hcon
  have h2 : makeCredentialOptionsTryFrom
      (Value.Map [(KeyType.TextString "rk", cborUnsigned 1),
        (KeyType.TextString "up", cborBool false)]) =
      Except.error Ctap2StatusCode.CTAP2_ERR_CBOR_UNEXPECTED_TYPE := rfl
  rw [h2] at hcon
  simp at hcon

/-- Claim C4 (amended): MakeCredentialOptions decode fails with the
invalid-option error exactly when the map contains an "up" entry whose
value is boolean false and any "rk" entry present has a boolean value; an
"up" entry with a non-boolean value fails with the wrong-type error; and
when "up" is absent or boolean true and "rk" and "uv" are absent, decoding
succeeds with the defaults rk = false and uv = false. -/
theorem claim_C4 (m : List (KeyType × Value)) :
    (makeCredentialOptionsTryFrom (Value.Map m) = .error .CTAP2_ERR_INVALID_OPTION ↔
      (mapGet m (KeyType.TextString "up") = some (cborBool false) ∧
        ∀ e, mapGet m (KeyType.TextString "rk") = some e →
          (e = cborBool true ∨ e = cborBool false))) ∧
    (∀ e, mapGet m (KeyType.TextString "up") = some e → (∀ b, e ≠ cborBool b) →
      makeCredentialOptionsTryFrom (Value.Map m) =
        .error .CTAP2_ERR_CBOR_UNEXPECTED_TYPE) ∧
    ((mapGet m (KeyType.TextString "up") = none ∨
        mapGet m (KeyType.TextString "up") = some (cborBool true)) →
      mapGet m (KeyType.TextString "rk") = none →
      mapGet m (KeyType.TextString "uv") = none →
      makeCredentialOptionsTryFrom (Value.Map m) = .ok { rk := false, uv := false }) := by
  refine ⟨⟨?_, ?_⟩, ?_, ?_⟩
  · -- forward direction of the iff
    intro hINV
    rcases hrk : mapGet m (KeyType.TextString "rk") with _ | erk
    · rcases hup : mapGet m (KeyType.TextString "up") with _ | eup
      · rcases huv : mapGet m (KeyType.TextString "uv") with _ | euv
        · simp [makeCredentialOptionsTryFrom, read_map, hrk, hup, huv] at hINV
        · rcases hrb : read_bool euv with e | b
          · have := read_bool_error_eq hrb
            subst this
            simp [makeCredentialOptionsTryFrom, read_map, hrk, hup, huv, hrb] at hINV
          · simp [makeCredentialOptionsTryFrom, read_map, hrk, hup, huv, hrb] at hINV
      · rcases hrb : read_bool eup with e | b
        · have := read_bool_error_eq hrb
          subst this
          simp [makeCredentialOptionsTryFrom, read_map, hrk, hup, hrb] at hINV
        · cases b
          · refine ⟨?_, ?_⟩
            · rw [eq_cborBool_of_read_bool_ok hrb]
            · intro e he
              exact Option.noConfusion he
          · rcases huv : mapGet m (KeyType.TextString "uv") with _ | euv
            · simp [makeCredentialOptionsTryFrom, read_map, hrk, hup, huv, hrb] at hINV
            · rcases hrb2 : read_bool euv with e2 | b2
              · have := read_bool_error_eq hrb2
                subst this
                simp [makeCredentialOptionsTryFrom, read_map, hrk, hup, huv,
                  hrb, hrb2] at hINV
              · simp [makeCredentialOptionsTryFrom, read_map, hrk, hup, huv,
                  hrb, hrb2] at hINV
    · rcases hrbk : read_bool erk with e | brk
      · have := read_bool_error_eq hrbk
        subst this
        simp [makeCredentialOptionsTryFrom, read_map, hrk, hrbk] at hINV
      · rcases hup : mapGet m (KeyType.TextString "up") with _ | eup
        · rcases huv : mapGet m (KeyType.TextString "uv") with _ | euv
          · simp [makeCredentialOptionsTryFrom, read_map, hrk, hrbk, hup, huv] at hINV
          · rcases hrb2 : read_bool euv with e2 | b2
            · have := read_bool_error_eq hrb2
              subst this
              simp [makeCredentialOptionsTryFrom, read_map, hrk, hrbk, hup, huv,
                hrb2] at hINV
            · simp [makeCredentialOptionsTryFrom, read_map, hrk, hrbk, hup, huv,
                hrb2] at hINV
        · rcases hrb : read_bool eup with e | b
          · have := read_bool_error_eq hrb
            subst this
            simp [makeCredentialOptionsTryFrom, read_map, hrk, hrbk, hup, hrb] at hINV
          · cases b
            · refine ⟨?_, ?_⟩
              · rw [eq_cborBool_of_read_bool_ok hrb]
              · intro e he
                have hee : erk = e := Option.some.inj he
                subst hee
                have hb := eq_cborBool_of_read_bool_ok hrbk
                cases brk
                · exact Or.inr hb
                · exact Or.inl hb
            · rcases huv : mapGet m (KeyType.TextString "uv") with _ | euv
              · simp [makeCredentialOptionsTryFrom, read_map, hrk, hrbk, hup, huv,
                  hrb] at hINV
              · rcases hrb2 : read_bool euv with e2 | b2
                · have := read_bool_error_eq hrb2
                  subst this
                  simp [makeCredentialOptionsTryFrom, read_map, hrk, hrbk, hup,
                    huv, hrb, hrb2] at hINV
                · simp [makeCredentialOptionsTryFrom, read_map, hrk, hrbk, hup,
                    huv, hrb, hrb2] at hINV
  · -- backward direction of the iff
    rintro ⟨hup, hrkOk⟩
    rcases hrk : mapGet m (KeyType.TextString "rk") with _ | erk
    · simp [makeCredentialOptionsTryFrom, read_map, hrk, hup]
    · rcases hrkOk erk hrk with he | he <;>
        (subst he
         simp [makeCredentialOptionsTryFrom, read_map, hrk, hup])
  · -- a non-boolean "up" value is a wrong-type error
    intro e hup hnb
    rcases hrk : mapGet m (KeyType.TextString "rk") with _ | erk
    · simp [makeCredentialOptionsTryFrom, read_map, hrk, hup, read_bool_error e hnb]
    · rcases hrbk : read_bool erk with e2 | brk
      · have := read_bool_error_eq hrbk
        subst this
        simp [makeCredentialOptionsTryFrom, read_map, hrk, hrbk]
      · simp [makeCredentialOptionsTryFrom, read_map, hrk, hrbk, hup,
          read_bool_error e hnb]
  · -- "up" absent or true continues with the stated defaults
    intro hup hrk huv
    rcases hup with hup | hup <;>
      simp [makeCredentialOptionsTryFrom, read_map, hrk, hup, huv]

/-- Claim C4, witness: the map with only "up" mapped to boolean false
decodes to the invalid-option error, and the empty map decodes to the
default options. -/
theorem claim_C4_witness :
    makeCredentialOptionsTryFrom
      (Value.Map [(KeyType.TextString "up", cborBool false)]) =
      .error .CTAP2_ERR_INVALID_OPTION ∧
    makeCredentialOptionsTryFrom (Value.Map []) = .ok { rk := false, uv := false } := by
  constructor
  · exact (claim_C4 [(KeyType.TextString "up", cborBool false)]).1.2
      ⟨rfl, fun e he => by cases he⟩
  · exact (claim_C4 []).2.2 (Or.inl rfl) rfl rfl

theorem ok_or_missing_eq_ok_iff {α : Type} (o : Option α) (a : α) :
    ok_or_missing o = .ok a ↔ o = some a := by
  cases o <;> simp [ok_or_missing]

theorem extract_byte_string_ok {v : Value} {b : List Nat}
    (h : extract_byte_string v = .ok b) : v = cborBytes b := by
  cases v with
  | KeyValue k =>
    cases k with
    | ByteString bs => simp [extract_byte_string] at h; subst h; rfl
    | Unsigned u => simp [extract_byte_string] at h
    | Negative s => simp [extract_byte_string] at h
    | TextString s => simp [extract_byte_string] at h
  | Array xs => simp [extract_byte_string] at h
  | Map mm => simp [extract_byte_string] at h
  | Simple s => simp [extract_byte_string] at h

theorem extract_text_string_err {v : Value} {e : Ctap2StatusCode}
    (h : extract_text_string v = .error e) : e = .CTAP2_ERR_CBOR_UNEXPECTED_TYPE := by
  cases v with
  | KeyValue k => cases k <;> simp [extract_text_string] at h <;> exact h.symm
  | Array xs => simp [extract_text_string] at h; exact h.symm
  | Map mm => simp [extract_text_string] at h; exact h.symm
  | Simple s => simp [extract_text_string] at h; exact h.symm

/-- Every successfully decoded credential source has the PublicKey type,
and its private key is the valid 32-byte scalar stored under tag 1 of the
input map. -/
theorem credentialSourceTryFrom_ok_fields {v : Value} {r : PublicKeyCredentialSource}
    (h : credentialSourceTryFrom v = .ok r) :
    r.key_type = .PublicKey ∧
    ∀ m, v = Value.Map m →
      ∀ pk, mapGet m (KeyType.Unsigned 1) = some (cborBytes pk) →
        pk.length = 32 ∧ secKeyFromBytes pk = some r.private_key := by
  cases v with
  | KeyValue k => simp [credentialSourceTryFrom, extract_map, rbind] at h
  | Array xs => simp [credentialSourceTryFrom, extract_map, rbind] at h
  | Simple s => simp [credentialSourceTryFrom, extract_map, rbind] at h
  | Map m =>
    rw [credentialSourceTryFrom] at h
    simp only [extract_map, rbind_ok, mapRemove_fst] at h
    rcases hq0 : ok_or_missing (mapGet m (KeyType.Unsigned 0)) with e | v0 <;>
      rw [hq0] at h
    · simp [rbind] at h
    simp only [rbind_ok] at h
    rcases hx0 : extract_byte_string v0 with e | cid <;> rw [hx0] at h
    · simp [rbind] at h
    simp only [rbind_ok] at h
    have hm1get : mapGet (mapRemove m (KeyType.Unsigned 0)).2 (KeyType.Unsigned 1) =
        mapGet m (KeyType.Unsigned 1) :=
      mapGet_mapRemove_snd m (KeyType.Unsigned 1) (KeyType.Unsigned 0) (by decide)
    generalize hm1d : (mapRemove m (KeyType.Unsigned 0)).2 = m1 at h hm1get
    rcases hq1 : ok_or_missing (mapGet m1 (KeyType.Unsigned 1)) with e | v1 <;>
      rw [hq1] at h
    · simp [rbind] at h
    simp only [rbind_ok] at h
    rcases hx1 : extract_byte_string v1 with e | pkd <;> rw [hx1] at h
    · simp [rbind] at h
    simp only [rbind_ok] at h
    by_cases hlen : pkd.length = 32
    · rw [if_neg (by omega)] at h
      rcases hsk : secKeyFromBytes pkd with _ | k <;> rw [hsk] at h
      · simp [rbind] at h
      simp only [rbind_ok] at h
      generalize hm2d : (mapRemove m1 (KeyType.Unsigned 1)).2 = m2 at h
      rcases hq2 : ok_or_missing (mapGet m2 (KeyType.Unsigned 2)) with e | v2 <;>
        rw [hq2] at h
      · simp [rbind] at h
      simp only [rbind_ok] at h
      rcases hx2 : extract_text_string v2 with e | rp <;> rw [hx2] at h
      · simp [rbind] at h
      simp only [rbind_ok] at h
      generalize hm3d : (mapRemove m2 (KeyType.Unsigned 2)).2 = m3 at h
      rcases hq3 : ok_or_missing (mapGet m3 (KeyType.Unsigned 3)) with e | v3 <;>
        rw [hq3] at h
      · simp [rbind] at h
      simp only [rbind_ok] at h
      rcases hx3 : extract_byte_string v3 with e | uh <;> rw [hx3] at h
      · simp [rbind] at h
      simp only [rbind_ok] at h
      generalize hm4d : (mapRemove m3 (KeyType.Unsigned 3)).2 = m4 at h
      rcases hq4 : readOpt extract_text_string (mapGet m4 (KeyType.Unsigned 4))
        with e | oui <;> rw [hq4] at h
      · simp [rbind] at h
      simp only [rbind_ok] at h
      generalize hm5d : (mapRemove m4 (KeyType.Unsigned 4)).2 = m5 at h
      rcases hq5 : readOpt extract_byte_string (mapGet m5 (KeyType.Unsigned 5))
        with e | crr <;> rw [hq5] at h
      · simp [rbind] at h
      simp only [rbind_ok] at h
      have hrec := (Except.ok.inj h).symm
      refine ⟨by rw [hrec], ?_⟩
      intro mx hmx pk hpk
      have hmm : mx = m := (Value.Map.inj hmx.symm)
      subst hmm
      have hv1 : mapGet m1 (KeyType.Unsigned 1) = some v1 :=
        (ok_or_missing_eq_ok_iff _ _).1 hq1
      have hpkd : v1 = cborBytes pkd := extract_byte_string_ok hx1
      rw [hm1get, hpk] at hv1
      have hpe : pk = pkd := by
        have := Option.some.inj hv1
        rw [hpkd] at this
        simpa [cborBytes] using this
      subst hpe
      exact ⟨hlen, by rw [hrec]; exact hsk⟩
    · rw [if_pos hlen] at h
      simp at h

/-- Claim C5: credential-source decode accepts the private-key field (tag 1)
only as a byte string of exactly 32 bytes reconstructing to a valid private
scalar; any other length fails with the invalid-stored-data error, a
32-byte string that is not a valid scalar fails with the same error, and a
successful decode always carries the reconstructed scalar — never a
zero-filled or truncated key. -/
theorem claim_C5 (m : List (KeyType × Value)) (cid pk : List Nat)
    (h0 : mapGet m (KeyType.Unsigned 0) = some (cborBytes cid))
    (h1 : mapGet m (KeyType.Unsigned 1) = some (cborBytes pk)) :
    (pk.length ≠ 32 →
      credentialSourceTryFrom (Value.Map m) = .error .CTAP2_ERR_INVALID_CBOR) ∧
    (pk.length = 32 → secKeyFromBytes pk = none →
      credentialSourceTryFrom (Value.Map m) = .error .CTAP2_ERR_INVALID_CBOR) ∧
    (∀ r, credentialSourceTryFrom (Value.Map m) = .ok r →
      pk.length = 32 ∧ secKeyFromBytes pk = some r.private_key) := by
  have hkey : mapGet (mapRemove m (KeyType.Unsigned 0)).2 (KeyType.Unsigned 1) =
      some (cborBytes pk) := by
    rw [mapGet_mapRemove_snd m (KeyType.Unsigned 1) (KeyType.Unsigned 0) (by decide)]
    exact h1
  refine ⟨?_, ?_, ?_⟩
  · intro hlen
    simp [credentialSourceTryFrom, extract_map, h0, hkey, ok_or_missing,
      cborBytes, extract_byte_string, hlen]
  · intro hlen hnone
    simp [credentialSourceTryFrom, extract_map, h0, hkey, ok_or_missing,
      cborBytes, extract_byte_string, hlen, hnone, rbind]
  · intro r hr
    obtain ⟨-, hall⟩ := credentialSourceTryFrom_ok_fields hr
    exact hall m rfl pk h1

/-- Claim C5, witness: a 31-byte private-key field and an all-zero 32-byte
private-key field both fail with the invalid-stored-data error. -/
theorem claim_C5_witness :
    credentialSourceTryFrom (Value.Map
      [(KeyType.Unsigned 0, cborBytes [1]),
       (KeyType.Unsigned 1, cborBytes (List.replicate 31 0))]) =
      .error .CTAP2_ERR_INVALID_CBOR ∧
    credentialSourceTryFrom (Value.Map
      [(KeyType.Unsigned 0, cborBytes [1]),
       (KeyType.Unsigned 1, cborBytes (List.replicate 32 0))]) =
      .error .CTAP2_ERR_INVALID_CBOR := by
  constructor
  · exact (claim_C5
      [(KeyType.Unsigned 0, cborBytes [1]),
       (KeyType.Unsigned 1, cborBytes (List.replicate 31 0))]
      [1] (List.replicate 31 0) rfl rfl).1 (by decide)
  · exact (claim_C5
      [(KeyType.Unsigned 0, cborBytes [1]),
       (KeyType.Unsigned 1, cborBytes (List.replicate 32 0))]
      [1] (List.replicate 32 0) rfl rfl).2.1 (by decide)
      (by simp [secKeyFromBytes, validScalar, bytesToNat])

theorem mapGet_not_mem (l : List (KeyType × Value)) (k : KeyType)
    (h : ∀ p ∈ l, p.1 ≠ k) : mapGet l k = none := by
  induction l with
  | nil => rfl
  | cons p rest ih =>
    have hp := h p (List.mem_cons_self p rest)
    simp [mapGet, hp, ih fun q hq => h q (List.mem_cons_of_mem p hq)]

theorem mapRemove_not_mem (l : List (KeyType × Value)) (k : KeyType)
    (h : ∀ p ∈ l, p.1 ≠ k) : mapRemove l k = (none, l) := by
  induction l with
  | nil => rfl
  | cons p rest ih =>
    have hp := h p (List.mem_cons_self p rest)
    simp [mapRemove, hp, ih fun q hq => h q (List.mem_cons_of_mem p hq)]

theorem SecKey.to_bytes_length (k : SecKey) : k.to_bytes.length = 32 := by
  have hv := k.property
  simp only [validScalar, Bool.and_eq_true, beq_iff_eq] at hv
  exact hv.1.1.1

theorem secKeyFromBytes_to_bytes (k : SecKey) : secKeyFromBytes k.to_bytes = some k := by
  unfold secKeyFromBytes SecKey.to_bytes
  rw [dif_pos k.property]
  rfl

/-- Decoding the persistent encoding of a credential source, with any
entries under unrecognized tags appended, succeeds and yields the original
record with its type reset to PublicKey. -/
theorem credentialSource_decode_encode (c : PublicKeyCredentialSource)
    (extra : List (KeyType × Value))
    (hextra : ∀ p ∈ extra, ∀ j : Nat, j ≤ 5 → p.1 ≠ KeyType.Unsigned j) :
    credentialSourceTryFrom (Value.Map (credentialSourceToCborMap c ++ extra)) =
      .ok { c with key_type := .PublicKey } := by
  obtain ⟨kt, cid, sk, rp, uh, oui, crr⟩ := c
  have hlen : sk.to_bytes.length = 32 := SecKey.to_bytes_length sk
  have g4 : mapGet extra (KeyType.Unsigned 4) = none :=
    mapGet_not_mem extra _ fun p hp => hextra p hp 4 (by omega)
  have g5 : mapGet extra (KeyType.Unsigned 5) = none :=
    mapGet_not_mem extra _ fun p hp => hextra p hp 5 (by omega)
  have h4 : mapRemove extra (KeyType.Unsigned 4) = (none, extra) :=
    mapRemove_not_mem extra _ fun p hp => hextra p hp 4 (by omega)
  have h5 : mapRemove extra (KeyType.Unsigned 5) = (none, extra) :=
    mapRemove_not_mem extra _ fun p hp => hextra p hp 5 (by omega)
  cases oui <;> cases crr <;>
    simp [credentialSourceToCborMap, credentialSourceTryFrom, extract_map,
      mapRemove, mapGet, ok_or_missing, extract_byte_string, extract_text_string,
      cborBytes, cborText, readOpt, hlen, secKeyFromBytes_to_bytes,
      g4, g5, h4, h5, rbind]

theorem transport_round (t : AuthenticatorTransport) :
    authenticatorTransportTryFrom (authenticatorTransportToCbor t) = .ok t := by
  cases t <;> rfl

theorem transports_round (ts : List AuthenticatorTransport) :
    mapMRes authenticatorTransportTryFrom (ts.map authenticatorTransportToCbor) =
      .ok ts := by
  induction ts with
  | nil => rfl
  | cons t rest ih => simp [mapMRes, transport_round, ih]

theorem collectExtensions_round (l : List (String × Value)) :
    collectExtensions (l.map fun p => (KeyType.TextString p.1, p.2)) = .ok l := by
  induction l with
  | nil => rfl
  | cons p rest ih => simp [collectExtensions, ih]

/-- Claim C7, counterexample: a credential source with all optional fields
set whose credential type is the Unknown sentinel does not survive the
encode-then-decode round trip, because decode unconditionally resets the
type to PublicKey. -/
theorem claim_C7_counterexample :
    exCredSourceUnknown.other_ui.isSome = true ∧
    exCredSourceUnknown.cred_random.isSome = true ∧
    credentialSourceTryFrom (credentialSourceToCbor exCredSourceUnknown) ≠
      .ok exCredSourceUnknown := by
  refine ⟨rfl, rfl, ?_⟩
  intro hok
  have hkt := (credentialSourceTryFrom_ok_fields hok).1
  rw [show exCredSourceUnknown.key_type = PublicKeyCredentialType.Unknown from rfl]
    at hkt
  exact PublicKeyCredentialType.noConfusion hkt

/-- Claim C7 (amended): encode-then-decode is the identity for a
RelyingPartyEntity, UserEntity with all optionals set, every
CredentialParameter, a CredentialDescriptor with transports, Extensions,
HmacSecretOutput, every ClientPinSubCommand, and every CredentialSource
with all optionals set whose credential type is PublicKey. -/
theorem claim_C7 (rid rname ricon : String) (uid : List Nat)
    (uname udn uicon : String) (cp : PublicKeyCredentialParameter)
    (dt : PublicKeyCredentialType) (did : List Nat)
    (ts : List AuthenticatorTransport) (ext : List (String × Value))
    (ob : List Nat) (sub : ClientPinSubCommand)
    (cs : PublicKeyCredentialSource) (hcs : cs.key_type = .PublicKey)
    (hou : cs.other_ui.isSome = true) (hcr : cs.cred_random.isSome = true) :
    rpEntityTryFrom (rpEntityToCbor ⟨rid, some rname, some ricon⟩) =
      .ok ⟨rid, some rname, some ricon⟩ ∧
    userEntityTryFrom (userEntityToCbor ⟨uid, some uname, some udn, some uicon⟩) =
      .ok ⟨uid, some uname, some udn, some uicon⟩ ∧
    credentialParameterTryFrom (credentialParameterToCbor cp) = .ok cp ∧
    credentialDescriptorTryFrom (credentialDescriptorToCbor ⟨dt, did, some ts⟩) =
      .ok ⟨dt, did, some ts⟩ ∧
    extensionsTryFrom (extensionsToCbor ⟨ext⟩) = .ok ⟨ext⟩ ∧
    hmacSecretOutputTryFrom (hmacSecretOutputToCbor ⟨ob⟩) = .ok ⟨ob⟩ ∧
    clientPinSubCommandTryFrom (clientPinSubCommandToCbor sub) = .ok sub ∧
    credentialSourceTryFrom (credentialSourceToCbor cs) = .ok cs := by
  refine ⟨rfl, rfl, ?_, ?_, ?_, rfl, ?_, ?_⟩
  · obtain ⟨ct, alg⟩ := cp
    cases ct <;> cases alg <;> rfl
  · cases dt <;>
      simp [credentialDescriptorToCbor, credentialDescriptorTryFrom,
        credentialTypeToCbor, credentialTypeTryFrom, read_map, mapGet,
        ok_or_missing, read_byte_string, read_text_string, cborText, cborBytes,
        read_array, transports_round]
  · simp [extensionsTryFrom, extensionsToCbor, read_map, collectExtensions_round]
  · cases sub <;> rfl
  · have h := credentialSource_decode_encode cs [] (by intro p hp; cases hp)
    rw [List.append_nil] at h
    have hcc : { cs with key_type := PublicKeyCredentialType.PublicKey } = cs := by
      obtain ⟨kt, cid, sk, rp, uh, oui, crr⟩ := cs
      cases hcs
      rfl
    rw [credentialSourceToCbor, h, hcc]

/-- Claim C7, witness at concrete instances of every entity. -/
theorem claim_C7_witness :
    credentialSourceTryFrom (credentialSourceToCbor exCredSource) = .ok exCredSource ∧
    clientPinSubCommandTryFrom (clientPinSubCommandToCbor .SetPin) = .ok .SetPin ∧
    rpEntityTryFrom (rpEntityToCbor ⟨"a", some "b", some "c"⟩) =
      .ok ⟨"a", some "b", some "c"⟩ := by
  have h := claim_C7 "a" "b" "c" [0] "u" "d" "i" ⟨.PublicKey, .ES256⟩ .PublicKey [1]
    [.Usb] [("x", cborBool true)] [9] .SetPin exCredSource rfl rfl rfl
  exact ⟨h.2.2.2.2.2.2.2, h.2.2.2.2.2.2.1, h.1⟩

/-- Claim C8: appending an entry under any unrecognized integer tag to the
persistent encoding of a credential source leaves decoding unchanged, and
that decoding succeeds. -/
theorem claim_C8 (c : PublicKeyCredentialSource) (t : Nat) (v : Value)
    (ht : 5 < t) (ht2 : t < 2 ^ 64) :
    credentialSourceTryFrom (Value.Map (credentialSourceToCborMap c ++
        [(KeyType.Unsigned t, v)])) =
      credentialSourceTryFrom (Value.Map (credentialSourceToCborMap c)) ∧
    ∃ r, credentialSourceTryFrom (Value.Map (credentialSourceToCborMap c)) = .ok r := by
  have hextra : ∀ p ∈ [(KeyType.Unsigned t, v)], ∀ j : Nat, j ≤ 5 →
      p.1 ≠ KeyType.Unsigned j := by
    intro p hp j hj
    simp only [List.mem_singleton] at hp
    subst hp
    simp only [ne_eq, KeyType.Unsigned.injEq]
    omega
  have h1 := credentialSource_decode_encode c [(KeyType.Unsigned t, v)] hextra
  have h2 := credentialSource_decode_encode c [] (by intro p hp; cases hp)
  rw [List.append_nil] at h2
  exact ⟨h1.trans h2.symm, ⟨_, h2⟩⟩

/-- Claim C8, witness at the concrete credential source and tag 6. -/
theorem claim_C8_witness :
    credentialSourceTryFrom (Value.Map (credentialSourceToCborMap exCredSource ++
        [(KeyType.Unsigned 6, cborBool true)])) =
      credentialSourceTryFrom (Value.Map (credentialSourceToCborMap exCredSource)) :=
  (claim_C8 exCredSource 6 (cborBool true) (by decide) (by decide)).1

/-- Claim C10: the persistent encoding never serializes the credential-type
field (two sources differing only in type encode identically), every
successfully decoded credential source has type PublicKey, and a source
whose type is the Unknown sentinel does not survive an encode-then-decode
round trip. -/
theorem claim_C10 :
    (∀ (c : PublicKeyCredentialSource) (kt : PublicKeyCredentialType),
      credentialSourceToCbor { c with key_type := kt } = credentialSourceToCbor c) ∧
    (∀ (v : Value) (r : PublicKeyCredentialSource),
      credentialSourceTryFrom v = .ok r → r.key_type = .PublicKey) ∧
    (∀ c : PublicKeyCredentialSource, c.key_type = .Unknown →
      credentialSourceTryFrom (credentialSourceToCbor c) ≠ .ok c) := by
  refine ⟨?_, ?_, ?_⟩
  · intro c kt
    rfl
  · intro v r h
    exact (credentialSourceTryFrom_ok_fields h).1
  · intro c hc hok
    have hkt := (credentialSourceTryFrom_ok_fields hok).1
    rw [hc] at hkt
    exact PublicKeyCredentialType.noConfusion hkt

/-- Claim C10, witness at the concrete Unknown-typed credential source. -/
theorem claim_C10_witness :
    credentialSourceTryFrom (credentialSourceToCbor exCredSourceUnknown) ≠
      .ok exCredSourceUnknown ∧
    credentialSourceToCbor exCredSourceUnknown = credentialSourceToCbor exCredSource := by
  constructor
  · exact claim_C10.2.2 exCredSourceUnknown rfl
  · exact claim_C10.1 exCredSource .Unknown

/-- Claim C6: key-agreement key decode fails with the unsupported-algorithm
error when the key-type label (1) is not 2, when the algorithm label (3)
is neither the canonical ECDH code nor the accepted ES256 alias, or when
the curve label (-1) is not 1; and it fails with the distinct
invalid-parameter error when either coordinate byte string (labels -2 and
-3) does not have the exact coordinate width — never interchanging the two and
never the generic wrong-type error. -/
theorem claim_C6 (c : List (KeyType × Value)) (v1 v3 vc : Value)
    (kt alg curve : Int) (xb yb : List Nat)
    (h1 : mapGet c (KeyType.Unsigned 1) = some v1)
    (hr1 : read_integer v1 = .ok kt)
    (h3 : mapGet c (KeyType.Unsigned 3) = some v3)
    (hr3 : read_integer v3 = .ok alg)
    (hc : mapGet c (KeyType.Negative (-1)) = some vc)
    (hrc : read_integer vc = .ok curve)
    (hx : mapGet c (KeyType.Negative (-2)) = some (cborBytes xb))
    (hy : mapGet c (KeyType.Negative (-3)) = some (cborBytes yb)) :
    (kt ≠ EC2_KEY_TYPE →
      coseKeyToPubKey ⟨c⟩ = .error .CTAP2_ERR_UNSUPPORTED_ALGORITHM) ∧
    (kt = EC2_KEY_TYPE → alg ≠ ECDH_ALGORITHM → alg ≠ ES256_ALGORITHM →
      coseKeyToPubKey ⟨c⟩ = .error .CTAP2_ERR_UNSUPPORTED_ALGORITHM) ∧
    (kt = EC2_KEY_TYPE → (alg = ECDH_ALGORITHM ∨ alg = ES256_ALGORITHM) →
      curve ≠ P_256_CURVE →
      coseKeyToPubKey ⟨c⟩ = .error .CTAP2_ERR_UNSUPPORTED_ALGORITHM) ∧
    (kt = EC2_KEY_TYPE → (alg = ECDH_ALGORITHM ∨ alg = ES256_ALGORITHM) →
      curve = P_256_CURVE → xb.length ≠ NBYTES →
      coseKeyToPubKey ⟨c⟩ = .error .CTAP1_ERR_INVALID_PARAMETER) ∧
    (kt = EC2_KEY_TYPE → (alg = ECDH_ALGORITHM ∨ alg = ES256_ALGORITHM) →
      curve = P_256_CURVE → xb.length = NBYTES → yb.length ≠ NBYTES →
      coseKeyToPubKey ⟨c⟩ = .error .CTAP1_ERR_INVALID_PARAMETER) := by
  refine ⟨?_, ?_, ?_, ?_, ?_⟩
  · intro hkt
    simp [coseKeyToPubKey, h1, hr1, ok_or_missing, hkt]
  · intro hkt ha1 ha2
    subst hkt
    simp [coseKeyToPubKey, h1, hr1, h3, hr3, ok_or_missing, ha1, ha2]
  · intro hkt halg hcu
    subst hkt
    rcases halg with ha | ha <;>
      (subst ha
       simp [coseKeyToPubKey, h1, hr1, h3, hr3, hc, hrc, ok_or_missing, hcu,
         ECDH_ALGORITHM, ES256_ALGORITHM])
  · intro hkt halg hcu hxl
    subst hkt
    subst hcu
    rcases halg with ha | ha <;>
      (subst ha
       simp [coseKeyToPubKey, h1, hr1, h3, hr3, hc, hrc, hx, ok_or_missing,
         read_byte_string, cborBytes, hxl, ECDH_ALGORITHM, ES256_ALGORITHM])
  · intro hkt halg hcu hxl hyl
    subst hkt
    subst hcu
    rcases halg with ha | ha <;>
      (subst ha
       simp [coseKeyToPubKey, h1, hr1, h3, hr3, hc, hrc, hx, hy, ok_or_missing,
         read_byte_string, cborBytes, hxl, hyl, ECDH_ALGORITHM, ES256_ALGORITHM])

/-- Claim C6, witness: a COSE map whose curve label is 2 decodes to the
unsupported-algorithm error, and one whose x coordinate has 31 bytes
decodes to the invalid-parameter error. -/
theorem claim_C6_witness :
    coseKeyToPubKey ⟨[(KeyType.Unsigned 1, Value.KeyValue (KeyType.Unsigned 2)),
      (KeyType.Unsigned 3, Value.KeyValue (KeyType.Negative (-25))),
      (KeyType.Negative (-1), Value.KeyValue (KeyType.Unsigned 2)),
      (KeyType.Negative (-2), cborBytes (List.replicate 32 0)),
      (KeyType.Negative (-3), cborBytes (List.replicate 32 0))]⟩ =
      .error .CTAP2_ERR_UNSUPPORTED_ALGORITHM ∧
    coseKeyToPubKey ⟨[(KeyType.Unsigned 1, Value.KeyValue (KeyType.Unsigned 2)),
      (KeyType.Unsigned 3, Value.KeyValue (KeyType.Negative (-25))),
      (KeyType.Negative (-1), Value.KeyValue (KeyType.Unsigned 1)),
      (KeyType.Negative (-2), cborBytes (List.replicate 31 0)),
      (KeyType.Negative (-3), cborBytes (List.replicate 32 0))]⟩ =
      .error .CTAP1_ERR_INVALID_PARAMETER := by
  constructor
  · exact (claim_C6
      [(KeyType.Unsigned 1, Value.KeyValue (KeyType.Unsigned 2)),
       (KeyType.Unsigned 3, Value.KeyValue (KeyType.Negative (-25))),
       (KeyType.Negative (-1), Value.KeyValue (KeyType.Unsigned 2)),
       (KeyType.Negative (-2), cborBytes (List.replicate 32 0)),
       (KeyType.Negative (-3), cborBytes (List.replicate 32 0))]
      (Value.KeyValue (KeyType.Unsigned 2)) (Value.KeyValue (KeyType.Negative (-25)))
      (Value.KeyValue (KeyType.Unsigned 2))
      2 (-25) 2 (List.replicate 32 0) (List.replicate 32 0)
      rfl rfl rfl rfl rfl rfl rfl rfl).2.2.1 rfl (Or.inl rfl) (by decide)
  · exact (claim_C6
      [(KeyType.Unsigned 1, Value.KeyValue (KeyType.Unsigned 2)),
       (KeyType.Unsigned 3, Value.KeyValue (KeyType.Negative (-25))),
       (KeyType.Negative (-1), Value.KeyValue (KeyType.Unsigned 1)),
       (KeyType.Negative (-2), cborBytes (List.replicate 31 0)),
       (KeyType.Negative (-3), cborBytes (List.replicate 32 0))]
      (Value.KeyValue (KeyType.Unsigned 2)) (Value.KeyValue (KeyType.Negative (-25)))
      (Value.KeyValue (KeyType.Unsigned 1))
      2 (-25) 1 (List.replicate 31 0) (List.replicate 32 0)
      rfl rfl rfl rfl rfl rfl rfl rfl).2.2.2.1 rfl (Or.inl rfl) rfl (by decide)

/-- Claim C9: for every decoder of this layer and every required field,
decoding an otherwise well-typed map that lacks that field fails with the
distinct missing-parameter error, never the wrong-type error: the "id" of
a relying party or user entity, the "type" and "alg" of a credential
parameter, the "type" and "id" of a credential descriptor, the labels
1, 2 and 3 of the hmac-secret input, the labels of the COSE key, and the
required tags 0..3 of the credential source. -/
theorem claim_C9 :
    (∀ m, mapGet m (KeyType.TextString "id") = none →
      rpEntityTryFrom (Value.Map m) = .error .CTAP2_ERR_MISSING_PARAMETER) ∧
    (∀ m, mapGet m (KeyType.TextString "id") = none →
      userEntityTryFrom (Value.Map m) = .error .CTAP2_ERR_MISSING_PARAMETER) ∧
    (∀ m, mapGet m (KeyType.TextString "type") = none →
      credentialParameterTryFrom (Value.Map m) = .error .CTAP2_ERR_MISSING_PARAMETER) ∧
    (∀ m s, mapGet m (KeyType.TextString "type") = some (cborText s) →
      mapGet m (KeyType.TextString "alg") = none →
      credentialParameterTryFrom (Value.Map m) = .error .CTAP2_ERR_MISSING_PARAMETER) ∧
    (∀ m, mapGet m (KeyType.TextString "type") = none →
      credentialDescriptorTryFrom (Value.Map m) = .error .CTAP2_ERR_MISSING_PARAMETER) ∧
    (∀ m s, mapGet m (KeyType.TextString "type") = some (cborText s) →
      mapGet m (KeyType.TextString "id") = none →
      credentialDescriptorTryFrom (Value.Map m) = .error .CTAP2_ERR_MISSING_PARAMETER) ∧
    (∀ m, mapGet m (KeyType.Unsigned 1) = none →
      hmacSecretInputTryFrom (Value.Map m) = .error .CTAP2_ERR_MISSING_PARAMETER) ∧
    (∀ m cm, mapGet m (KeyType.Unsigned 1) = some (Value.Map cm) →
      mapGet m (KeyType.Unsigned 2) = none →
      hmacSecretInputTryFrom (Value.Map m) = .error .CTAP2_ERR_MISSING_PARAMETER) ∧
    (∀ m cm b, mapGet m (KeyType.Unsigned 1) = some (Value.Map cm) →
      mapGet m (KeyType.Unsigned 2) = some (cborBytes b) →
      mapGet m (KeyType.Unsigned 3) = none →
      hmacSecretInputTryFrom (Value.Map m) = .error .CTAP2_ERR_MISSING_PARAMETER) ∧
    (∀ c, mapGet c (KeyType.Unsigned 1) = none →
      coseKeyToPubKey ⟨c⟩ = .error .CTAP2_ERR_MISSING_PARAMETER) ∧
    (∀ c, mapGet c (KeyType.Unsigned 1) = some (Value.KeyValue (KeyType.Unsigned 2)) →
      mapGet c (KeyType.Unsigned 3) = none →
      coseKeyToPubKey ⟨c⟩ = .error .CTAP2_ERR_MISSING_PARAMETER) ∧
    (∀ c, mapGet c (KeyType.Unsigned 1) = some (Value.KeyValue (KeyType.Unsigned 2)) →
      mapGet c (KeyType.Unsigned 3) = some (Value.KeyValue (KeyType.Negative (-25))) →
      mapGet c (KeyType.Negative (-1)) = none →
      coseKeyToPubKey ⟨c⟩ = .error .CTAP2_ERR_MISSING_PARAMETER) ∧
    (∀ c, mapGet c (KeyType.Unsigned 1) = some (Value.KeyValue (KeyType.Unsigned 2)) →
      mapGet c (KeyType.Unsigned 3) = some (Value.KeyValue (KeyType.Negative (-25))) →
      mapGet c (KeyType.Negative (-1)) = some (Value.KeyValue (KeyType.Unsigned 1)) →
      mapGet c (KeyType.Negative (-2)) = none →
      coseKeyToPubKey ⟨c⟩ = .error .CTAP2_ERR_MISSING_PARAMETER) ∧
    (∀ c xb, mapGet c (KeyType.Unsigned 1) = some (Value.KeyValue (KeyType.Unsigned 2)) →
      mapGet c (KeyType.Unsigned 3) = some (Value.KeyValue (KeyType.Negative (-25))) →
      mapGet c (KeyType.Negative (-1)) = some (Value.KeyValue (KeyType.Unsigned 1)) →
      mapGet c (KeyType.Negative (-2)) = some (cborBytes xb) → xb.length = 32 →
      mapGet c (KeyType.Negative (-3)) = none →
      coseKeyToPubKey ⟨c⟩ = .error .CTAP2_ERR_MISSING_PARAMETER) ∧
    (∀ m, mapGet m (KeyType.Unsigned 0) = none →
      credentialSourceTryFrom (Value.Map m) = .error .CTAP2_ERR_MISSING_PARAMETER) ∧
    (∀ m cid, mapGet m (KeyType.Unsigned 0) = some (cborBytes cid) →
      mapGet m (KeyType.Unsigned 1) = none →
      credentialSourceTryFrom (Value.Map m) = .error .CTAP2_ERR_MISSING_PARAMETER) ∧
    (∀ m cid pkb, mapGet m (KeyType.Unsigned 0) = some (cborBytes cid) →
      mapGet m (KeyType.Unsigned 1) = some (cborBytes pkb) →
      validScalar pkb = true →
      mapGet m (KeyType.Unsigned 2) = none →
      credentialSourceTryFrom (Value.Map m) = .error .CTAP2_ERR_MISSING_PARAMETER) ∧
    (∀ m cid pkb rp, mapGet m (KeyType.Unsigned 0) = some (cborBytes cid) →
      mapGet m (KeyType.Unsigned 1) = some (cborBytes pkb) →
      validScalar pkb = true →
      mapGet m (KeyType.Unsigned 2) = some (cborText rp) →
      mapGet m (KeyType.Unsigned 3) = none →
      credentialSourceTryFrom (Value.Map m) = .error .CTAP2_ERR_MISSING_PARAMETER) := by
  have gg : ∀ (X : List (KeyType × Value)) (a b : KeyType), a ≠ b →
      mapGet (mapRemove X b).2 a = mapGet X a :=
    fun X a b hab => mapGet_mapRemove_snd X a b hab
  have r2 : read_integer (Value.KeyValue (KeyType.Unsigned 2)) = .ok 2 := rfl
  have ru1 : read_integer (Value.KeyValue (KeyType.Unsigned 1)) = .ok 1 := rfl
  have rm25 : read_integer (Value.KeyValue (KeyType.Negative (-25))) = .ok (-25) := rfl
  refine ⟨?_, ?_, ?_, ?_, ?_, ?_, ?_, ?_, ?_, ?_, ?_, ?_, ?_, ?_, ?_, ?_, ?_, ?_⟩
  · intro m h
    simp [rpEntityTryFrom, read_map, h, ok_or_missing]
  · intro m h
    simp [userEntityTryFrom, read_map, h, ok_or_missing]
  · intro m h
    simp [credentialParameterTryFrom, read_map, h, ok_or_missing]
  · intro m s ht h
    by_cases hs : s = "public-key" <;>
      simp [credentialParameterTryFrom, read_map, ht, h, ok_or_missing,
        credentialTypeTryFrom, read_text_string, cborText, hs]
  · intro m h
    simp [credentialDescriptorTryFrom, read_map, h, ok_or_missing]
  · intro m s ht h
    by_cases hs : s = "public-key" <;>
      simp [credentialDescriptorTryFrom, read_map, ht, h, ok_or_missing,
        credentialTypeTryFrom, read_text_string, cborText, hs]
  · intro m h
    simp [hmacSecretInputTryFrom, read_map, h, ok_or_missing]
  · intro m cm h1 h2
    simp [hmacSecretInputTryFrom, read_map, h1, h2, ok_or_missing]
  · intro m cm b h1 h2 h3
    simp [hmacSecretInputTryFrom, read_map, h1, h2, h3, ok_or_missing,
      read_byte_string, cborBytes]
  · intro c h
    simp [coseKeyToPubKey, h, ok_or_missing]
  · intro c h1 h3
    simp [coseKeyToPubKey, h1, h3, ok_or_missing, r2, EC2_KEY_TYPE]
  · intro c h1 h3 hc
    simp [coseKeyToPubKey, h1, h3, hc, ok_or_missing, r2, rm25,
      EC2_KEY_TYPE, ECDH_ALGORITHM, ES256_ALGORITHM]
  · intro c h1 h3 hc hx
    simp [coseKeyToPubKey, h1, h3, hc, hx, ok_or_missing, r2, rm25, ru1,
      EC2_KEY_TYPE, ECDH_ALGORITHM, ES256_ALGORITHM, P_256_CURVE]
  · intro c xb h1 h3 hc hx hxl hy
    simp [coseKeyToPubKey, h1, h3, hc, hx, hy, ok_or_missing, r2, rm25, ru1,
      EC2_KEY_TYPE, ECDH_ALGORITHM, ES256_ALGORITHM, P_256_CURVE,
      read_byte_string, cborBytes, hxl, NBYTES]
  · intro m h
    simp [credentialSourceTryFrom, extract_map, h, ok_or_missing]
  · intro m cid h0 h1
    have k1 := gg m (KeyType.Unsigned 1) (KeyType.Unsigned 0) (by decide)
    simp [credentialSourceTryFrom, extract_map, h0, h1, k1, ok_or_missing,
      extract_byte_string, cborBytes]
  · intro m cid pkb h0 h1 hv h2
    have hlen : pkb.length = 32 := by
      have hv2 := hv
      simp only [validScalar, Bool.and_eq_true, beq_iff_eq] at hv2
      exact hv2.1.1.1
    have hsk : secKeyFromBytes pkb = some ⟨pkb, hv⟩ := by
      unfold secKeyFromBytes
      rw [dif_pos hv]
    have k1 := gg m (KeyType.Unsigned 1) (KeyType.Unsigned 0) (by decide)
    have k2a := gg (mapRemove m (KeyType.Unsigned 0)).2
      (KeyType.Unsigned 2) (KeyType.Unsigned 1) (by decide)
    have k2b := gg m (KeyType.Unsigned 2) (KeyType.Unsigned 0) (by decide)
    simp [credentialSourceTryFrom, extract_map, h0, h1, h2, k1, k2a, k2b,
      ok_or_missing, extract_byte_string, cborBytes, hlen, hsk]
  · intro m cid pkb rp h0 h1 hv h2 h3
    have hlen : pkb.length = 32 := by
      have hv2 := hv
      simp only [validScalar, Bool.and_eq_true, beq_iff_eq] at hv2
      exact hv2.1.1.1
    have hsk : secKeyFromBytes pkb = some ⟨pkb, hv⟩ := by
      unfold secKeyFromBytes
      rw [dif_pos hv]
    have k1 := gg m (KeyType.Unsigned 1) (KeyType.Unsigned 0) (by decide)
    have k2a := gg (mapRemove m (KeyType.Unsigned 0)).2
      (KeyType.Unsigned 2) (KeyType.Unsigned 1) (by decide)
    have k2b := gg m (KeyType.Unsigned 2) (KeyType.Unsigned 0) (by decide)
    have k3a := gg (mapRemove (mapRemove m (KeyType.Unsigned 0)).2
      (KeyType.Unsigned 1)).2 (KeyType.Unsigned 3) (KeyType.Unsigned 2) (by decide)
    have k3b := gg (mapRemove m (KeyType.Unsigned 0)).2
      (KeyType.Unsigned 3) (KeyType.Unsigned 1) (by decide)
    have k3c := gg m (KeyType.Unsigned 3) (KeyType.Unsigned 0) (by decide)
    simp [credentialSourceTryFrom, extract_map, h0, h1, h2, h3, k1, k2a, k2b,
      k3a, k3b, k3c, ok_or_missing, extract_byte_string, extract_text_string,
      cborBytes, cborText, hlen, hsk]

/-- Claim C9, witness: the empty map decodes to the missing-parameter error
for the relying-party entity and the hmac-secret input, and an hmac-secret
input sub-map with only label 1 present is missing label 2. -/
theorem claim_C9_witness :
    rpEntityTryFrom (Value.Map []) = .error .CTAP2_ERR_MISSING_PARAMETER ∧
    hmacSecretInputTryFrom (Value.Map []) = .error .CTAP2_ERR_MISSING_PARAMETER ∧
    hmacSecretInputTryFrom (Value.Map [(KeyType.Unsigned 1, Value.Map [])]) =
      .error .CTAP2_ERR_MISSING_PARAMETER := by
  refine ⟨claim_C9.1 [] rfl, ?_, ?_⟩
  · exact claim_C9.2.2.2.2.2.2.1 [] rfl
  · exact claim_C9.2.2.2.2.2.2.2.1 [(KeyType.Unsigned 1, Value.Map [])] [] rfl rfl
